import Mathlib

/-!
Shallow embedding of the `blackhole` repository (src/blackhole/src/main.cpp
and src/blackhole/src/objects.hpp), together with theorems settling the
specification claims about it.

Modelling conventions:
* machine `float`/`double` arithmetic is embedded as exact `ℚ` arithmetic where
  the code is purely rational (camera angles, Schwarzschild radius) and as `ℝ`
  where the code uses trigonometry or square roots (sphere vertices, view
  matrices); the spec's "within floating-point tolerance" phrases are settled
  against the exact real value;
* the C++ global mutable state is made explicit as state records passed to and
  returned from the embedded functions;
* GLFW/OpenGL calls carry no program logic here; the arguments the program
  passes to them (window size, title, hints) are recorded in plain records.
-/

namespace Blackhole

/-! ## Sphere mesh (`buildSphere`, main.cpp lines 49-115)

`buildSphere(stacks, slices)` fills `verts` with one interleaved record per
stack/slice grid point (position then normal, both equal to the point on the
unit sphere) and fills `indices` with six indices per grid quad. -/

/-- A 3-component vector of reals, standing for `glm::vec3`. -/
structure Vec3 where
  x : ℝ
  y : ℝ
  z : ℝ

/-- One vertex record pushed by `buildSphere`: three position floats followed
by three normal floats (main.cpp lines 65-72). -/
structure Vertex where
  pos : Vec3
  normal : Vec3

/-- The grid point of `buildSphere` at stack index `i`, slice index `j`
(main.cpp lines 54-63): `phi = (i/stacks)*pi`, `theta = (j/slices)*2*pi`,
position `(sin phi * cos theta, cos phi, sin phi * sin theta)`. -/
noncomputable def sphereVertex (stacks' slices i j : ℕ) : Vec3 :=
  let v : ℝ := (i : ℝ) / (stacks' : ℝ)
  let phi : ℝ := v * Real.pi
  let u : ℝ := (j : ℝ) / (slices : ℝ)
  let theta : ℝ := u * (2 * Real.pi)
  ⟨Real.sin phi * Real.cos theta, Real.cos phi, Real.sin phi * Real.sin theta⟩

/-- The vertex list built by the double loop of main.cpp lines 53-74:
for `i` from `0` to `stacks` and `j` from `0` to `slices`, push position and
normal, both equal to `sphereVertex stacks slices i j`. -/
noncomputable def sphereVerts (stacks' slices : ℕ) : List Vertex :=
  (List.range (stacks' + 1)).flatMap fun i =>
    (List.range (slices + 1)).map fun j =>
      ⟨sphereVertex stacks' slices i j, sphereVertex stacks' slices i j⟩

/-- The index list built by the double loop of main.cpp lines 76-89:
for `i` from `0` to `stacks - 1` and `j` from `0` to `slices - 1`, with
`a = i*(slices+1)+j` and `b = a+slices+1`, push `a, b, a+1, b, b+1, a+1`. -/
def sphereIndices (stacks' slices : ℕ) : List ℕ :=
  (List.range stacks').flatMap fun i =>
    (List.range slices).flatMap fun j =>
      let a := i * (slices + 1) + j
      let b := a + (slices + 1)
      [a, b, a + 1, b, b + 1, a + 1]

/-! ## Orbit-camera drag state (main.cpp lines 118-191)

The relevant C++ globals are `dragging`, `lastX`, `lastY`, `yawDeg`,
`pitchDeg` and the constant `sensitivity = 0.2f`.  Cursor coordinates and
angles are embedded as exact rationals. -/

/-- `sensitivity = 0.2f` (main.cpp line 130). -/
def sensitivity : ℚ := 2 / 10

/-- The mouse-drag camera state: the C++ globals `dragging`, `lastX`, `lastY`,
`yawDeg`, `pitchDeg` (main.cpp lines 125-129). -/
structure CamState where
  dragging : Bool
  lastX : ℚ
  lastY : ℚ
  yawDeg : ℚ
  pitchDeg : ℚ
deriving DecidableEq

/-- `mouse_button_callback` (main.cpp lines 158-169): on left press, set
`dragging` and record the current cursor position as the anchor; on left
release, clear `dragging`.  `button = 0` stands for `GLFW_MOUSE_BUTTON_LEFT`
and `press` distinguishes `GLFW_PRESS` from `GLFW_RELEASE`. -/
def mouse_button_callback (s : CamState) (button : ℕ) (press : Bool)
    (cursorX cursorY : ℚ) : CamState :=
  if button = 0 then
    if press then
      { s with dragging := true, lastX := cursorX, lastY := cursorY }
    else
      { s with dragging := false }
  else s

/-- `cursor_position_callback` (main.cpp lines 171-191): ignore the event
unless dragging; otherwise update the anchor, add `dx * sensitivity` to the
yaw, subtract `dy * sensitivity` from the pitch, and clamp the pitch to
`[-89, 89]`. -/
def cursor_position_callback (s : CamState) (xpos ypos : ℚ) : CamState :=
  if ¬ s.dragging then s
  else
    let dx := xpos - s.lastX
    let dy := ypos - s.lastY
    let yawDeg := s.yawDeg + dx * sensitivity
    let pitchRaw := s.pitchDeg - dy * sensitivity
    let pitchHi := if pitchRaw > 89 then 89 else pitchRaw
    let pitchClamped := if pitchHi < -89 then -89 else pitchHi
    { s with lastX := xpos, lastY := ypos, yawDeg := yawDeg,
             pitchDeg := pitchClamped }

/-- Folding a list of cursor-move events through `cursor_position_callback`. -/
def runCursorEvents (s : CamState) (events : List (ℚ × ℚ)) : CamState :=
  events.foldl (fun st e => cursor_position_callback st e.1 e.2) s

/-! ## `BlackHole` (objects.hpp) -/

/-- `constexpr double G = 6.6743e-11` (objects.hpp line 3), as an exact
rational. -/
def G : ℚ := 66743 / 10 ^ 15

/-- `constexpr double c = 299792458.0` (objects.hpp line 4). -/
def c : ℚ := 299792458

/-- The `BlackHole` struct (objects.hpp lines 6-15): position, mass, and the
derived Schwarzschild radius. -/
structure BlackHole where
  position : ℚ × ℚ × ℚ
  mass : ℚ
  r_s : ℚ

/-- The `BlackHole(pos, m)` constructor (objects.hpp lines 11-12):
`r_s = (2.0 * G * m) / (c * c)`. -/
def BlackHole.make (pos : ℚ × ℚ × ℚ) (m : ℚ) : BlackHole :=
  ⟨pos, m, (2 * G * m) / (c * c)⟩

/-! ## Window creation and initialization (main.cpp lines 226-239) -/

/-- The OpenGL profile requested through `glfwWindowHint`. -/
inductive GLProfile
  | anyProfile
  | core
  | compat
deriving DecidableEq

/-- The window request `main` issues: the four `glfwWindowHint` calls
(context version 3.3, `GLFW_OPENGL_PROFILE = GLFW_OPENGL_CORE_PROFILE`,
`GLFW_OPENGL_FORWARD_COMPAT = GL_TRUE`, main.cpp lines 228-231) followed by
`glfwCreateWindow(800, 600, "Black Hole (Sphere)", nullptr, nullptr)`
(main.cpp lines 233-234). -/
structure WindowRequest where
  width : ℕ
  height : ℕ
  title : String
  contextVersionMajor : ℕ
  contextVersionMinor : ℕ
  profile : GLProfile
  forwardCompat : Bool
deriving DecidableEq

/-- The concrete window request made by `main`. -/
def mainWindowRequest : WindowRequest :=
  { width := 800
    height := 600
    title := "Black Hole (Sphere)"
    contextVersionMajor := 3
    contextVersionMinor := 3
    profile := GLProfile.core
    forwardCompat := true }

/-- Outcomes of the three fallible initialization calls in `main`:
`glfwInit()`, `glfwCreateWindow(...)` (may return null) and
`gladLoadGLLoader(...)`. -/
structure InitEnv where
  glfwInitOk : Bool
  windowOk : Bool
  gladOk : Bool
deriving DecidableEq

/-- What the initialization phase of `main` observably did before entering the
render loop: which failure messages it printed and whether it exited early. -/
structure InitTrace where
  consoleErrors : List String
  exitedEarly : Bool
deriving DecidableEq

/-- The initialization sequence of `main` (main.cpp lines 227-239): the code
calls `glfwInit()` without testing its result, never compares the window
handle against `nullptr`, and ignores the result of `gladLoadGLLoader`; no
branch, print statement, or early return depends on any of the three
outcomes, so the observable trace is the same for every environment. -/
def initSequence (env : InitEnv) : InitTrace :=
  { consoleErrors := [], exitedEarly := false }

/-! ## glm vector and matrix operations used by the camera code -/

/-- Componentwise vector addition (`glm::vec3` operator `+`). -/
def Vec3.add (a b : Vec3) : Vec3 :=
  ⟨a.x + b.x, a.y + b.y, a.z + b.z⟩

/-- Componentwise vector subtraction (`glm::vec3` operator `-`). -/
def Vec3.sub (a b : Vec3) : Vec3 :=
  ⟨a.x - b.x, a.y - b.y, a.z - b.z⟩

/-- Vector-scalar multiplication (`glm::vec3` operator `*` with a scalar). -/
def Vec3.smul (a : Vec3) (t : ℝ) : Vec3 :=
  ⟨a.x * t, a.y * t, a.z * t⟩

/-- `glm::dot` on 3-vectors. -/
def Vec3.dot (a b : Vec3) : ℝ :=
  a.x * b.x + a.y * b.y + a.z * b.z

/-- `glm::cross`. -/
def Vec3.cross (a b : Vec3) : Vec3 :=
  ⟨a.y * b.z - a.z * b.y, a.z * b.x - a.x * b.z, a.x * b.y - a.y * b.x⟩

/-- Euclidean length of a vector (`glm::length`). -/
noncomputable def Vec3.len (v : Vec3) : ℝ :=
  Real.sqrt (v.x ^ 2 + v.y ^ 2 + v.z ^ 2)

/-- `glm::normalize`: divide every component by the Euclidean length. -/
noncomputable def Vec3.normalize (v : Vec3) : Vec3 :=
  ⟨v.x / v.len, v.y / v.len, v.z / v.len⟩

/-- A 4-component row of reals. -/
structure Vec4 where
  x : ℝ
  y : ℝ
  z : ℝ
  w : ℝ

/-- A 4x4 real matrix, standing for `glm::mat4`.  `rowI` of this record holds
the mathematical row `(Result[0][I], Result[1][I], Result[2][I],
Result[3][I])` of glm's column-major `Result`. -/
structure Mat4 where
  row0 : Vec4
  row1 : Vec4
  row2 : Vec4
  row3 : Vec4

/-- `glm::lookAt` (right-handed): with `f = normalize(center - eye)`,
`s = normalize(cross(f, up))`, `u = cross(s, f)`, the view matrix has rows
`(s, -dot(s,eye))`, `(u, -dot(u,eye))`, `(-f, dot(f,eye))`, `(0,0,0,1)`. -/
noncomputable def lookAt (eye center up : Vec3) : Mat4 :=
  let f := (center.sub eye).normalize
  let s := (f.cross up).normalize
  let u := s.cross f
  { row0 := ⟨s.x, s.y, s.z, -(s.dot eye)⟩
    row1 := ⟨u.x, u.y, u.z, -(u.dot eye)⟩
    row2 := ⟨-f.x, -f.y, -f.z, f.dot eye⟩
    row3 := ⟨0, 0, 0, 1⟩ }

/-- `glm::radians`: degrees to radians. -/
noncomputable def radians (deg : ℝ) : ℝ :=
  deg * (Real.pi / 180)

/-! ## Orbit camera view (`computeOrbitView`, main.cpp lines 193-205) -/

/-- The direction vector computed at main.cpp lines 194-201:
`(cos yaw * cos pitch, sin pitch, sin yaw * cos pitch)` from the angles in
radians, then normalized. -/
noncomputable def orbitDirection (yawDeg pitchDeg : ℝ) : Vec3 :=
  let yaw := radians yawDeg
  let pitch := radians pitchDeg
  Vec3.normalize ⟨Real.cos yaw * Real.cos pitch, Real.sin pitch,
                  Real.sin yaw * Real.cos pitch⟩

/-- The eye position computed at main.cpp line 203:
`cameraPos = target - dir * distanceToTarget`. -/
noncomputable def orbitEye (yawDeg pitchDeg distanceToTarget : ℝ)
    (target : Vec3) : Vec3 :=
  target.sub ((orbitDirection yawDeg pitchDeg).smul distanceToTarget)

/-- `computeOrbitView` (main.cpp lines 193-205): the look-at matrix from the
orbit eye toward the target with up-vector `(0, 1, 0)`. -/
noncomputable def computeOrbitView (yawDeg pitchDeg distanceToTarget : ℝ)
    (target : Vec3) : Mat4 :=
  lookAt (orbitEye yawDeg pitchDeg distanceToTarget target) target ⟨0, 1, 0⟩

/-! ## Flying camera and the render loop (main.cpp lines 135-156, 283-300) -/

/-- `moveSpeed = 3.0f` (main.cpp line 133). -/
def moveSpeed : ℝ := 3

/-- Which movement keys are held during a frame (`glfwGetKey` results for
`W`, `S`, `D`, `A`, `Space`, `Left-Shift`). -/
structure Keys where
  w : Bool
  s : Bool
  d : Bool
  a : Bool
  space : Bool
  shift : Bool

/-- `processMovement` (main.cpp lines 135-156): translate the flying-camera
position along `cameraFront`, the right vector, and `cameraUp` by
`moveSpeed * dt` for each held key, in the source's order W, S, D, A,
Space, Left-Shift. -/
noncomputable def processMovement (cameraPos cameraFront cameraUp : Vec3)
    (keys : Keys) (dt : ℝ) : Vec3 :=
  let v := moveSpeed * dt
  let p1 := if keys.w then cameraPos.add (cameraFront.smul v) else cameraPos
  let p2 := if keys.s then p1.sub (cameraFront.smul v) else p1
  let right := (cameraFront.cross cameraUp).normalize
  let p3 := if keys.d then p2.add (right.smul v) else p2
  let p4 := if keys.a then p3.sub (right.smul v) else p3
  let p5 := if keys.space then p4.add (cameraUp.smul v) else p4
  let p6 := if keys.shift then p5.sub (cameraUp.smul v) else p5
  p6

/-- The mutable state the render loop reads and writes: the flying camera
(`cameraPos`, `cameraFront`, `cameraUp`, main.cpp lines 120-122), the orbit
camera parameters (`yawDeg`, `pitchDeg`, `distanceToTarget`, `target`,
main.cpp lines 123-126), and the `view` matrix (main.cpp line 119). -/
structure SceneState where
  cameraPos : Vec3
  cameraFront : Vec3
  cameraUp : Vec3
  yawDeg : ℝ
  pitchDeg : ℝ
  distanceToTarget : ℝ
  target : Vec3
  view : Mat4

/-- One iteration of the render loop's camera updates (main.cpp lines
288-292): `processMovement`, then `view = lookAt(cameraPos, cameraPos +
cameraFront, cameraUp)`, immediately overwritten by
`view = computeOrbitView()`. -/
noncomputable def frameStep (st : SceneState) (keys : Keys) (dt : ℝ) :
    SceneState :=
  let pos := processMovement st.cameraPos st.cameraFront st.cameraUp keys dt
  let view := lookAt pos (pos.add st.cameraFront) st.cameraUp
  let view := computeOrbitView st.yawDeg st.pitchDeg st.distanceToTarget
    st.target
  { st with cameraPos := pos, view := view }

/-- The sequence of view matrices used for drawing, one per frame, when the
loop runs once per element of `inputs` (held keys and frame time `dt`). -/
noncomputable def viewTrace (st : SceneState) :
    List (Keys × ℝ) → List Mat4
  | [] => []
  | input :: rest =>
      let st' := frameStep st input.1 input.2
      st'.view :: viewTrace st' rest

/-! ## Helper lemmas -/

/-- Length of a `flatMap` whose chunks all have the same length `K`. -/
theorem length_flatMap_const {α β : Type _} (K : ℕ) (l : List α)
    (g : α → List β) (h : ∀ x, (g x).length = K) :
    (l.flatMap g).length = l.length * K := by
  induction l with
  | nil => simp
  | cons a t ih =>
      rw [List.flatMap_cons, List.length_append, h a, ih, List.length_cons]
      ring

/-- Element `t * K + r` of a `flatMap` over `List.range M` whose chunks all
have length `K` is element `r` of chunk `t`. -/
theorem getElem?_flatMap_range {α : Type _} (K : ℕ) :
    ∀ (M : ℕ) (g : ℕ → List α), (∀ k, (g k).length = K) →
      ∀ t r : ℕ, t < M → r < K →
        ((List.range M).flatMap g)[t * K + r]? = (g t)[r]? := by
  intro M
  induction M with
  | zero =>
      intro g hg t r ht hr
      exact absurd ht (Nat.not_lt_zero t)
  | succ M ih =>
      intro g hg t r ht hr
      rw [List.range_succ_eq_map, List.flatMap_cons, List.flatMap_map]
      cases t with
      | zero =>
          rw [Nat.zero_mul, Nat.zero_add,
            List.getElem?_append_left (by rw [hg 0]; exact hr)]
      | succ t =>
          have hidx : (t + 1) * K + r = (g 0).length + (t * K + r) := by
            rw [hg 0]; ring
          rw [hidx, List.getElem?_append_right (Nat.le_add_right _ _),
            Nat.add_sub_cancel_left]
          exact ih (fun k => g (k + 1)) (fun k => hg (k + 1)) t r
            (Nat.lt_of_succ_lt_succ ht) hr

/-- `buildSphere` pushes `(stacks+1)*(slices+1)` vertex records. -/
theorem sphereVerts_length (m n : ℕ) :
    (sphereVerts m n).length = (m + 1) * (n + 1) := by
  rw [sphereVerts,
    length_flatMap_const (n + 1) _ _
      (fun i => by rw [List.length_map, List.length_range]),
    List.length_range]

/-- `buildSphere` pushes `6*stacks*slices` indices. -/
theorem sphereIndices_length (m n : ℕ) :
    (sphereIndices m n).length = 6 * m * n := by
  rw [sphereIndices,
    length_flatMap_const (n * 6) _ _
      (fun i => by
        rw [length_flatMap_const 6 _ _ (fun j => by rfl), List.length_range]),
    List.length_range]
  ring

/-- One cursor-move event while dragging always lands the pitch in
`[-89, 89]`, whatever the previous pitch was. -/
theorem cursor_callback_pitch_clamped (s : CamState) (x y : ℚ)
    (hd : s.dragging = true) :
    -89 ≤ (cursor_position_callback s x y).pitchDeg ∧
      (cursor_position_callback s x y).pitchDeg ≤ 89 := by
  simp only [cursor_position_callback, hd, not_true, decide_not, ite_false,
    Bool.false_eq_true, not_false_eq_true]
  split_ifs <;> constructor <;> dsimp only <;> linarith

/-- `cursor_position_callback` never changes the `dragging` flag. -/
theorem cursor_callback_dragging (s : CamState) (x y : ℚ) :
    (cursor_position_callback s x y).dragging = s.dragging := by
  rw [cursor_position_callback]
  split_ifs <;> rfl

/-- Element `i * (slices+1) + j` of the vertex list is the grid vertex at
stack `i`, slice `j`, with normal equal to position. -/
theorem sphereVerts_getElem? (m n i j : ℕ) (hi : i ≤ m) (hj : j ≤ n) :
    (sphereVerts m n)[i * (n + 1) + j]? =
      some ⟨sphereVertex m n i j, sphereVertex m n i j⟩ := by
  rw [sphereVerts,
    getElem?_flatMap_range (n + 1) (m + 1) _
      (fun k => by rw [List.length_map, List.length_range]) i j
      (Nat.lt_succ_of_le hi) (Nat.lt_succ_of_le hj),
    List.getElem?_map, List.getElem?_range (Nat.lt_succ_of_le hj)]
  rfl

/-- The squared coordinates of a spherical-coordinate point sum to `1`. -/
theorem sin_cos_point_norm_sq (phi theta : ℝ) :
    (Real.sin phi * Real.cos theta) ^ 2 + Real.cos phi ^ 2 +
      (Real.sin phi * Real.sin theta) ^ 2 = 1 := by
  have h1 := Real.sin_sq_add_cos_sq phi
  have h2 := Real.sin_sq_add_cos_sq theta
  linear_combination Real.sin phi ^ 2 * h2 + h1

/-- Every `buildSphere` grid vertex has Euclidean norm exactly `1`. -/
theorem sphereVertex_len_one (m n i j : ℕ) :
    (sphereVertex m n i j).len = 1 := by
  rw [sphereVertex, Vec3.len]
  dsimp only
  rw [sin_cos_point_norm_sq, Real.sqrt_one]

/-! ## Claim theorems -/

/-- Claim C1: for positive stack and slice counts `m`, `n`, `buildSphere`
produces `(m+1)*(n+1)` vertices; the vertex at stack `i`, slice `j` sits at
list position `i*(n+1)+j` and has position
`(sin(phi)cos(theta), cos(phi), sin(phi)sin(theta))` with `phi = (i/m)*pi`,
`theta = (j/n)*2*pi`; its normal equals its position; and every position has
norm exactly `1` (the exact-real counterpart of "1 within floating-point
tolerance"). -/
theorem sphere_vertices_spec (m n : ℕ) (hm : 0 < m) (hn : 0 < n) :
    (sphereVerts m n).length = (m + 1) * (n + 1) ∧
    ∀ i j, i ≤ m → j ≤ n →
      (sphereVerts m n)[i * (n + 1) + j]? =
        some ⟨sphereVertex m n i j, sphereVertex m n i j⟩ ∧
      sphereVertex m n i j =
        ⟨Real.sin ((i : ℝ) / (m : ℝ) * Real.pi) *
            Real.cos ((j : ℝ) / (n : ℝ) * (2 * Real.pi)),
          Real.cos ((i : ℝ) / (m : ℝ) * Real.pi),
          Real.sin ((i : ℝ) / (m : ℝ) * Real.pi) *
            Real.sin ((j : ℝ) / (n : ℝ) * (2 * Real.pi))⟩ ∧
      (sphereVertex m n i j).len = 1 :=
  ⟨sphereVerts_length m n, fun i j hi hj =>
    ⟨sphereVerts_getElem? m n i j hi hj, rfl, sphereVertex_len_one m n i j⟩⟩

/-- Witness for C1 at `stacks = slices = 2`, vertex `(i, j) = (1, 1)`. -/
theorem sphere_vertices_spec_witness :
    0 < 2 ∧ 0 < 2 ∧ (sphereVerts 2 2).length = (2 + 1) * (2 + 1) ∧
    (sphereVerts 2 2)[1 * (2 + 1) + 1]? =
      some ⟨sphereVertex 2 2 1 1, sphereVertex 2 2 1 1⟩ ∧
    (sphereVertex 2 2 1 1).len = 1 :=
  ⟨by decide, by decide, (sphere_vertices_spec 2 2 (by decide) (by decide)).1,
    ((sphere_vertices_spec 2 2 (by decide) (by decide)).2 1 1 (by decide)
      (by decide)).1,
    ((sphere_vertices_spec 2 2 (by decide) (by decide)).2 1 1 (by decide)
      (by decide)).2.2⟩

/-- Claim C2: for positive `m`, `n`, `buildSphere` produces `6*m*n` indices;
entry `6*(i*n+j)+r` (for `i < m`, `j < n`, `r < 6`) is entry `r` of the two
triangles `(a, b, a+1)`, `(b, b+1, a+1)` of quad `(i, j)`, where
`a = i*(n+1)+j` and `b = a+(n+1)`; and `stacks = slices = 2` yields `9`
vertices and `24` indices. -/
theorem sphere_index_list_spec (m n : ℕ) (hm : 0 < m) (hn : 0 < n) :
    (sphereIndices m n).length = 6 * m * n ∧
    (∀ i j r, i < m → j < n → r < 6 →
      (sphereIndices m n)[6 * (i * n + j) + r]? =
        (let a := i * (n + 1) + j
         let b := a + (n + 1)
         [a, b, a + 1, b, b + 1, a + 1])[r]?) ∧
    (sphereVerts 2 2).length = 9 ∧ (sphereIndices 2 2).length = 24 := by
  refine ⟨sphereIndices_length m n, fun i j r hi hj hr => ?_,
    by rw [sphereVerts_length], by decide⟩
  have houter : 6 * (i * n + j) + r = i * (n * 6) + (j * 6 + r) := by ring
  rw [sphereIndices, houter,
    getElem?_flatMap_range (n * 6) m _
      (fun k => by
        rw [length_flatMap_const 6 _ _ (fun j => by rfl), List.length_range])
      i (j * 6 + r) hi (by omega),
    getElem?_flatMap_range 6 n _ (fun k => by rfl) j r hj hr]

/-- Witness for C2 at `stacks = slices = 2`, quad `(1, 1)`, entry `1`. -/
theorem sphere_index_list_spec_witness :
    0 < 2 ∧ 0 < 2 ∧ (sphereIndices 2 2).length = 6 * 2 * 2 ∧
    (sphereIndices 2 2)[6 * (1 * 2 + 1) + 1]? =
      (let a := 1 * (2 + 1) + 1
       let b := a + (2 + 1)
       [a, b, a + 1, b, b + 1, a + 1])[1]? :=
  ⟨by decide, by decide, (sphere_index_list_spec 2 2 (by decide) (by decide)).1,
    (sphere_index_list_spec 2 2 (by decide) (by decide)).2.1 1 1 1 (by decide)
      (by decide) (by decide)⟩

/-- Claim C3: for every initial pitch in `[-89, 89]` and every finite
sequence of drag-move cursor events (each adding `dx * 0.2` to the yaw,
unclamped, and `-dy * 0.2` to the pitch, then clamping), the pitch stays in
`[-89, 89]`: the clamp is an invariant of the cursor-position handler. -/
theorem pitch_clamp_invariant (s : CamState) (events : List (ℚ × ℚ))
    (hd : s.dragging = true)
    (hlo : -89 ≤ s.pitchDeg) (hhi : s.pitchDeg ≤ 89) :
    -89 ≤ (runCursorEvents s events).pitchDeg ∧
      (runCursorEvents s events).pitchDeg ≤ 89 := by
  induction events generalizing s with
  | nil => exact ⟨hlo, hhi⟩
  | cons e rest ih =>
      have hstep := cursor_callback_pitch_clamped s e.1 e.2 hd
      have hd' : (cursor_position_callback s e.1 e.2).dragging = true := by
        rw [cursor_callback_dragging, hd]
      exact ih (cursor_position_callback s e.1 e.2) hd' hstep.1 hstep.2

/-- Witness for C3: starting at the program's initial pitch `15` and applying
two drag events (one pulling the pitch far below `-89`), the pitch is still
in `[-89, 89]`. -/
theorem pitch_clamp_invariant_witness :
    (⟨true, 0, 0, 0, 15⟩ : CamState).dragging = true ∧
    -89 ≤ (⟨true, 0, 0, 0, 15⟩ : CamState).pitchDeg ∧
    (⟨true, 0, 0, 0, 15⟩ : CamState).pitchDeg ≤ 89 ∧
    (-89 ≤ (runCursorEvents ⟨true, 0, 0, 0, 15⟩
        [(3, 1000), (5, -2000)]).pitchDeg ∧
      (runCursorEvents ⟨true, 0, 0, 0, 15⟩
        [(3, 1000), (5, -2000)]).pitchDeg ≤ 89) :=
  ⟨rfl, by norm_num, by norm_num,
    pitch_clamp_invariant ⟨true, 0, 0, 0, 15⟩ [(3, 1000), (5, -2000)] rfl
      (by norm_num) (by norm_num)⟩

/-- Claim C10: a cursor-position event that arrives while `dragging` is false
leaves the whole camera state unchanged (yaw, pitch, `lastX`, `lastY`). -/
theorem cursor_callback_noop_when_not_dragging (s : CamState) (x y : ℚ)
    (h : s.dragging = false) :
    cursor_position_callback s x y = s := by
  simp [cursor_position_callback, h]

/-- Witness for C10: a concrete non-dragging state is untouched by a cursor
event. -/
theorem cursor_callback_noop_witness :
    (⟨false, 1, 2, -90, 15⟩ : CamState).dragging = false ∧
    cursor_position_callback ⟨false, 1, 2, -90, 15⟩ 40 50 =
      ⟨false, 1, 2, -90, 15⟩ :=
  ⟨rfl, cursor_callback_noop_when_not_dragging ⟨false, 1, 2, -90, 15⟩ 40 50 rfl⟩

/-- Claim C4: the `BlackHole` constructor sets `r_s = 2*G*m/c^2` for every
positive mass, `r_s` is strictly monotone in the mass, and the mass `5.0e30`
yields `r_s` within 1% of `7.41e3` meters. -/
theorem schwarzschild_radius_spec :
    (∀ pos m, 0 < m → (BlackHole.make pos m).r_s = 2 * G * m / (c * c)) ∧
    (∀ pos₁ pos₂ m₁ m₂, 0 < m₁ → m₁ < m₂ →
      (BlackHole.make pos₁ m₁).r_s < (BlackHole.make pos₂ m₂).r_s) ∧
    |(BlackHole.make (0, 0, 0) (5 * 10 ^ 30)).r_s - 741 * 10 ^ 1| ≤
      741 * 10 ^ 1 / 100 := by
  refine ⟨fun pos m _ => rfl, ?_, ?_⟩
  · intro pos₁ pos₂ m₁ m₂ hm₁ hlt
    show 2 * G * m₁ / (c * c) < 2 * G * m₂ / (c * c)
    have hc : (0 : ℚ) < c * c := by norm_num [c]
    have hG : (0 : ℚ) < 2 * G := by norm_num [G]
    exact (div_lt_div_iff_of_pos_right hc).mpr (mul_lt_mul_of_pos_left hlt hG)
  · show |2 * G * (5 * 10 ^ 30) / (c * c) - 741 * 10 ^ 1| ≤ 741 * 10 ^ 1 / 100
    rw [abs_le]
    constructor <;> norm_num [G, c]

/-- Witness for C4: the formula and the strict monotonicity at the concrete
masses `2` and `3`. -/
theorem schwarzschild_radius_spec_witness :
    (0 : ℚ) < 2 ∧ (2 : ℚ) < 3 ∧
    (BlackHole.make (0, 0, 0) 2).r_s = 2 * G * 2 / (c * c) ∧
    (BlackHole.make (0, 0, 0) 2).r_s < (BlackHole.make (0, 0, 0) 3).r_s :=
  ⟨by norm_num, by norm_num,
    schwarzschild_radius_spec.1 (0, 0, 0) 2 (by norm_num),
    schwarzschild_radius_spec.2.1 (0, 0, 0) (0, 0, 0) 2 3 (by norm_num)
      (by norm_num)⟩

/-- Claim C6: every entry of the index list of `buildSphere` is strictly
below the vertex count `(stacks+1)*(slices+1)`. -/
theorem sphere_indices_lt_vertex_count (m n : ℕ) (hm : 0 < m) (hn : 0 < n) :
    ∀ k ∈ sphereIndices m n, k < (m + 1) * (n + 1) := by
  intro k hk
  rw [sphereIndices] at hk
  simp only [List.mem_flatMap, List.mem_range, List.mem_cons,
    List.not_mem_nil, or_false] at hk
  obtain ⟨i, hi, j, hj, hmem⟩ := hk
  have key : i * (n + 1) + (n + 1) ≤ m * (n + 1) := by
    calc i * (n + 1) + (n + 1) = (i + 1) * (n + 1) := by ring
    _ ≤ m * (n + 1) := Nat.mul_le_mul_right _ hi
  have hexp : (m + 1) * (n + 1) = m * (n + 1) + (n + 1) := by ring
  rw [hexp]
  generalize hA : i * (n + 1) = A at key hmem
  generalize hB : m * (n + 1) = B at key ⊢
  rcases hmem with h | h | h | h | h | h <;> omega

/-- Witness for C6: in the `stacks = slices = 2` mesh, the concrete index `4`
occurs and is below the vertex count `9`. -/
theorem sphere_indices_lt_vertex_count_witness :
    0 < 2 ∧ 0 < 2 ∧ 4 ∈ sphereIndices 2 2 ∧ 4 < (2 + 1) * (2 + 1) :=
  ⟨by decide, by decide, by decide,
    sphere_indices_lt_vertex_count 2 2 (by decide) (by decide) 4 (by decide)⟩

/-- Claim C9 counterexample: the window title the program passes to
`glfwCreateWindow` is "Black Hole (Sphere)", not "Black Hole". -/
theorem mainWindow_title_not_black_hole :
    ¬ mainWindowRequest.title = "Black Hole" := by
  decide

/-- Claim C9 (amended): the program requests a fixed 800x600 window titled
"Black Hole (Sphere)", with a core graphics profile and a forward-compatible
context. -/
theorem mainWindow_request_spec :
    mainWindowRequest.width = 800 ∧ mainWindowRequest.height = 600 ∧
    mainWindowRequest.title = "Black Hole (Sphere)" ∧
    mainWindowRequest.profile = GLProfile.core ∧
    mainWindowRequest.forwardCompat = true :=
  ⟨rfl, rfl, rfl, rfl, rfl⟩

/-- Claim C8 counterexample: in the environment where windowing, context
creation and the graphics loader all fail, the program still prints no
failure report and does not exit before the render loop. -/
theorem initSequence_failure_unreported :
    ¬ ((initSequence ⟨false, false, false⟩).consoleErrors ≠ [] ∧
       (initSequence ⟨false, false, false⟩).exitedEarly = true) := by
  decide

/-- Claim C8 (amended): the program never checks the results of `glfwInit`,
`glfwCreateWindow` or `gladLoadGLLoader`: for every outcome of those calls it
reports nothing and continues into the render loop without exiting. -/
theorem initSequence_ignores_failures (env : InitEnv) :
    (initSequence env).consoleErrors = [] ∧
    (initSequence env).exitedEarly = false :=
  ⟨rfl, rfl⟩

/-- Witness for the amended C8 at the environment where only window creation
fails. -/
theorem initSequence_ignores_failures_witness :
    (initSequence ⟨true, false, true⟩).consoleErrors = [] ∧
    (initSequence ⟨true, false, true⟩).exitedEarly = false :=
  initSequence_ignores_failures ⟨true, false, true⟩

/-- At `yaw = -90` degrees, `pitch = 0` degrees, the orbit direction vector
is `(0, 0, -1)`. -/
theorem orbitDirection_neg_ninety_zero :
    orbitDirection (-90) 0 = ⟨0, 0, -1⟩ := by
  rw [orbitDirection]
  rw [show radians (-90) = -(Real.pi / 2) by rw [radians]; ring,
    show radians 0 = 0 by rw [radians]; ring,
    Real.cos_neg, Real.cos_pi_div_two, Real.sin_neg, Real.sin_pi_div_two,
    Real.sin_zero, Real.cos_zero]
  norm_num [Vec3.normalize, Vec3.len]

/-- At `yaw = -90`, `pitch = 0`, `distance = 5`, `target = origin`, the orbit
eye sits at `(0, 0, 5)`. -/
theorem orbitEye_canonical : orbitEye (-90) 0 5 ⟨0, 0, 0⟩ = ⟨0, 0, 5⟩ := by
  rw [orbitEye, orbitDirection_neg_ninety_zero]
  rw [Vec3.smul, Vec3.sub]
  norm_num

/-- The canonical look-at matrix from `(0,0,5)` toward the origin with up
`(0,1,0)` is the translation by `(0,0,-5)`. -/
theorem lookAt_canonical_eval :
    lookAt ⟨0, 0, 5⟩ ⟨0, 0, 0⟩ ⟨0, 1, 0⟩ =
      { row0 := ⟨1, 0, 0, 0⟩, row1 := ⟨0, 1, 0, 0⟩,
        row2 := ⟨0, 0, 1, -5⟩, row3 := ⟨0, 0, 0, 1⟩ } := by
  have h25 : Real.sqrt 25 = 5 := by
    rw [show (25 : ℝ) = 5 ^ 2 by norm_num,
      Real.sqrt_sq (by norm_num : (0 : ℝ) ≤ 5)]
  have h1 : Real.sqrt 1 = 1 := Real.sqrt_one
  norm_num [lookAt, Vec3.sub, Vec3.cross, Vec3.dot, Vec3.normalize, Vec3.len,
    h25, h1]

/-- Claim C5: at `yaw = -90` degrees, `pitch = 0` degrees, `distance = 5`,
`target = origin`, the orbit camera's eye is at `(0, 0, 5)` (exactly, in the
real-number model), the produced view matrix is the canonical look-at
transform from that eye toward the origin with up-vector `(0, 1, 0)`, and
that matrix is the translation by `(0, 0, -5)`. -/
theorem orbit_view_canonical_spec :
    orbitEye (-90) 0 5 ⟨0, 0, 0⟩ = ⟨0, 0, 5⟩ ∧
    computeOrbitView (-90) 0 5 ⟨0, 0, 0⟩ =
      lookAt ⟨0, 0, 5⟩ ⟨0, 0, 0⟩ ⟨0, 1, 0⟩ ∧
    computeOrbitView (-90) 0 5 ⟨0, 0, 0⟩ =
      { row0 := ⟨1, 0, 0, 0⟩, row1 := ⟨0, 1, 0, 0⟩,
        row2 := ⟨0, 0, 1, -5⟩, row3 := ⟨0, 0, 0, 1⟩ } := by
  have h2 : computeOrbitView (-90) 0 5 ⟨0, 0, 0⟩ =
      lookAt ⟨0, 0, 5⟩ ⟨0, 0, 0⟩ ⟨0, 1, 0⟩ := by
    rw [computeOrbitView, orbitEye_canonical]
  exact ⟨orbitEye_canonical, h2, h2.trans lookAt_canonical_eval⟩

/-- One frame of the render loop draws with the orbit camera's view matrix
and leaves every orbit-camera parameter unchanged, whatever keys are held. -/
theorem frameStep_view_eq (st : SceneState) (keys : Keys) (dt : ℝ) :
    (frameStep st keys dt).view =
      computeOrbitView st.yawDeg st.pitchDeg st.distanceToTarget st.target ∧
    (frameStep st keys dt).yawDeg = st.yawDeg ∧
    (frameStep st keys dt).pitchDeg = st.pitchDeg ∧
    (frameStep st keys dt).distanceToTarget = st.distanceToTarget ∧
    (frameStep st keys dt).target = st.target :=
  ⟨rfl, rfl, rfl, rfl, rfl⟩

/-- The per-frame view matrices are all equal to the orbit view computed
from the initial orbit parameters, whatever the keyboard inputs are. -/
theorem viewTrace_eq_replicate (st : SceneState) (inputs : List (Keys × ℝ)) :
    viewTrace st inputs =
      List.replicate inputs.length
        (computeOrbitView st.yawDeg st.pitchDeg st.distanceToTarget
          st.target) := by
  induction inputs generalizing st with
  | nil => rfl
  | cons input rest ih =>
      rw [viewTrace, List.length_cons, List.replicate_succ]
      rw [ih (frameStep st input.1 input.2)]
      rfl

/-- Claim C7: in every iteration of the scene loop the view matrix used for
drawing equals the orbit camera's view, which depends only on yaw, pitch,
distance and target; the flying-camera state mutated by WASD/Space/Shift
has no effect: two runs of the same length differing only in keyboard input
produce the same view matrix each frame. -/
theorem orbit_view_independent_of_movement (st : SceneState)
    (inputs : List (Keys × ℝ)) :
    viewTrace st inputs =
      List.replicate inputs.length
        (computeOrbitView st.yawDeg st.pitchDeg st.distanceToTarget
          st.target) ∧
    ∀ inputs₂ : List (Keys × ℝ), inputs.length = inputs₂.length →
      viewTrace st inputs = viewTrace st inputs₂ := by
  refine ⟨viewTrace_eq_replicate st inputs, fun inputs₂ hlen => ?_⟩
  rw [viewTrace_eq_replicate st inputs, viewTrace_eq_replicate st inputs₂,
    hlen]

/-- Witness for C7: from the program's initial camera state, one frame with
`W` held and one frame with no key held produce the same view matrices. -/
theorem orbit_view_independent_witness :
    ([((⟨true, false, false, false, false, false⟩ : Keys), (1 : ℝ))].length =
      [((⟨false, false, false, false, false, false⟩ : Keys),
        (1 : ℝ))].length) ∧
    viewTrace
        ⟨⟨0, 0, 5⟩, ⟨0, 0, -1⟩, ⟨0, 1, 0⟩, -90, 15, 5, ⟨0, 0, 0⟩,
          ⟨⟨1, 0, 0, 0⟩, ⟨0, 1, 0, 0⟩, ⟨0, 0, 1, 0⟩, ⟨0, 0, 0, 1⟩⟩⟩
        [(⟨true, false, false, false, false, false⟩, 1)] =
      viewTrace
        ⟨⟨0, 0, 5⟩, ⟨0, 0, -1⟩, ⟨0, 1, 0⟩, -90, 15, 5, ⟨0, 0, 0⟩,
          ⟨⟨1, 0, 0, 0⟩, ⟨0, 1, 0, 0⟩, ⟨0, 0, 1, 0⟩, ⟨0, 0, 0, 1⟩⟩⟩
        [(⟨false, false, false, false, false, false⟩, 1)] :=
  ⟨rfl, (orbit_view_independent_of_movement _ _).2 _ rfl⟩

end Blackhole
